import Mathlib

/-!
Verification of the incident-orchestration core of an agentic multi-node
service simulator. The Python sources (orchestrator/llm_client.py,
orchestrator/planner.py, orchestrator/commander.py, orchestrator/executor.py,
failures/injector.py, failures/failure_scenarios.py) are shallowly embedded:
HTTP calls become explicit environment functions, wall-clock reads become
explicit parameters, and object state becomes explicit state records.
-/

set_option autoImplicit false

/-- Result of one outbound HTTP request. The constructor exc models a raised
requests exception (timeout or connection error); resp models a received
response with its status code and, when the body parses as JSON, the parsed
body (body = none models a body on which response.json() raises). -/
inductive HttpResult (α : Type) where
  | exc
  | resp (code : Nat) (body : Option α)
  deriving Repr, DecidableEq

/-- Parsed JSON body of a GET /health response: statusField is the value of
the "status" key when that key is present. -/
structure HealthBody where
  statusField : Option String
  deriving Repr, DecidableEq

/-- One entry of the service-status dictionary built by the pollers. The
Python code stores the whole JSON body; the claims only inspect the value of
the "status" key (status, none when the key is absent) and the synthesized
"error" string. -/
structure StatusEntry where
  status : Option String
  error : Option String
  deriving Repr, DecidableEq

/-- Environment of HTTP collaborators: per service name, the outcome of a GET
/health, a POST /recover, a GET /metrics and a GET /dependencies. The bodies
of /metrics and /dependencies are consumed opaquely, so only their parse
success is modelled. -/
structure ServiceEnv where
  health : String → HttpResult HealthBody
  recover : String → HttpResult Unit
  metrics : String → HttpResult Unit
  deps : String → HttpResult Unit

/-- A plan step, as in the JSON plan shape of llm_client.create_incident_plan. -/
structure PlanStep where
  step_id : Nat
  action : String
  target_service : String
  expected_outcome : String
  priority : String
  deriving Repr, DecidableEq

/-- A plan, as in the JSON plan shape of llm_client.create_incident_plan.
The metadata keys that planner.create_plan attaches afterwards (created_at,
planner_version, llm_used, custom_logic_applied) never alter these fields and
are not tracked. -/
structure Plan where
  incident_id : String
  severity : String
  summary : String
  steps : List PlanStep
  estimated_resolution_time : String
  deriving Repr, DecidableEq

namespace LLMClient

/-- Outcome of the requests.post call inside LLMClient.chat_with_llm:
reqException is a raised requests.exceptions.RequestException (timeout,
connection error; its text), otherException any other raised exception, and
response a received HTTP response, whose body is none when response.json()
raises and otherwise carries the list of choice message contents. -/
inductive LLMCall where
  | reqException (msg : String)
  | otherException (msg : String)
  | response (code : Nat) (body : Option (List String))
  deriving Repr, DecidableEq

/-- LLMClient.chat_with_llm: every exception is caught and turned into an
error STRING, never re-raised. A RequestException (which includes the
HTTPError from response.raise_for_status on a 4xx or 5xx code) yields a
string starting with "LLM Error: "; any other exception yields one starting
with "Error: "; an OK response yields the first choice content, or the fixed
text when choices is empty or absent. -/
def chat_with_llm : LLMCall → String
  | .reqException msg => "LLM Error: " ++ msg
  | .otherException msg => "Error: " ++ msg
  | .response code body =>
    if 400 ≤ code then "LLM Error: HTTP " ++ toString code
    else
      match body with
      | none => "Error: invalid JSON body"
      | some choices =>
        match choices with
        | c :: _ => c
        | [] => "No response from LLM"

/-- The hard-coded fallback plan built inside LLMClient.create_incident_plan
when json.loads raises on the text returned by chat_with_llm: two steps and
an estimated_resolution_time of "15 minutes". -/
def fallback_plan_llm : Plan :=
  { incident_id := "fallback_plan"
    severity := "medium"
    summary := "Fallback plan due to LLM response parsing error"
    steps :=
      [ { step_id := 1, action := "Investigate service health",
          target_service := "all", expected_outcome := "Identify root cause",
          priority := "high" },
        { step_id := 2, action := "Restart failed services",
          target_service := "failed_services",
          expected_outcome := "Service recovery", priority := "high" } ]
    estimated_resolution_time := "15 minutes" }

/-- LLMClient.create_incident_plan. The Python json.loads is passed in as
json_loads (returning none when it raises JSONDecodeError). Because
chat_with_llm catches every exception, this function is total: it never
raises, it either returns the parsed plan or fallback_plan_llm. -/
def create_incident_plan (json_loads : String → Option Plan) (call : LLMCall) :
    Plan :=
  match json_loads (chat_with_llm call) with
  | some plan => plan
  | none => fallback_plan_llm

end LLMClient

namespace IncidentPlanner

/-- IncidentPlanner._create_fallback_plan: the three-step plan (investigate
all, restart the currently down or degraded services, verify dependencies)
with estimated_resolution_time "20 minutes". now is the int(time.time())
read. -/
def create_fallback_plan (now : Nat) (incident_summary : String)
    (service_status : List (String × StatusEntry)) : Plan :=
  let failed_services :=
    (service_status.filter
      (fun p => p.2.status == some "down" || p.2.status == some "degraded")).map
      Prod.fst
  { incident_id := "fallback_" ++ toString now
    severity := "medium"
    summary := "Fallback plan for: " ++ incident_summary
    steps :=
      [ { step_id := 1, action := "Investigate failed services",
          target_service := "all", expected_outcome := "Identify root cause",
          priority := "high" },
        { step_id := 2, action := "Restart failed services",
          target_service := String.intercalate "," failed_services,
          expected_outcome := "Service recovery", priority := "high" },
        { step_id := 3, action := "Verify dependencies",
          target_service := "all",
          expected_outcome := "Dependency health confirmed",
          priority := "medium" } ]
    estimated_resolution_time := "20 minutes" }

/-- IncidentPlanner.create_plan. The try around create_incident_plan can only
take its except branch (which would call create_fallback_plan) when
create_incident_plan raises; since chat_with_llm catches every exception and
the JSONDecodeError of json.loads is handled inside create_incident_plan,
that branch is unreachable and the llm_plan is always the value of
create_incident_plan. The custom_plan hook (orchestrator/agent_hooks.py) is
passed in as hook; hook p = none models the hook raising, in which case the
enhanced plan falls back to llm_plan. The metadata keys added afterwards do
not change steps or estimated_resolution_time. -/
def create_plan (json_loads : String → Option Plan) (hook : Plan → Option Plan)
    (call : LLMClient.LLMCall) : Plan :=
  let llm_plan := LLMClient.create_incident_plan json_loads call
  let enhanced_plan :=
    match hook llm_plan with
    | some p => p
    | none => llm_plan
  enhanced_plan

end IncidentPlanner

/-- Translation of the per-service branch of the status pollers
(IncidentCommander._get_all_service_status and
PlanExecutor._get_updated_service_status, whose bodies are identical): a
raised request exception is caught by the bare except and recorded as status
"down"; a 200 response whose body parses is stored verbatim; a 200 response
whose body makes response.json() raise also lands in the bare except (status
"down"); a non-200 response is recorded as status "unknown" with an HTTP
error string. -/
def health_status_entry : HttpResult HealthBody → StatusEntry
  | .exc => { status := some "down", error := some "Connection failed" }
  | .resp code body =>
    if code == 200 then
      match body with
      | some b => { status := b.statusField, error := none }
      | none => { status := some "down", error := some "Connection failed" }
    else { status := some "unknown", error := some ("HTTP " ++ toString code) }

namespace IncidentCommander

/-- IncidentCommander._get_all_service_status: one entry per configured
service, in registry order. -/
def get_all_service_status (services : List String) (env : ServiceEnv) :
    List (String × StatusEntry) :=
  services.map (fun name => (name, health_status_entry (env.health name)))

/-- An incident dictionary as built by the detection code. Only the down and
degraded incidents carry an "id" key in the source; no claim inspects it, so
it is not tracked. root_cause_services is only set by dependency incidents. -/
structure Incident where
  itype : String
  severity : String
  affected_services : List String
  root_cause_services : List String := []
  summary : String
  timestamp : Nat
  deriving Repr, DecidableEq

/-- Outcome of one pipeline stage as the commander observes it through its
try/except: ok with the stage value, or err with str(e) of the raised
exception. -/
inductive StageOutcome (α : Type) where
  | ok (val : α)
  | err (msg : String)
  deriving Repr, DecidableEq

/-- The stage outcomes feeding one _handle_incident run: the custom_diagnose
hook, planner.create_plan, executor.execute_plan, custom_evaluate and
custom_learn, each as seen through the try/except around its call. Payloads
other than the plan are consumed opaquely and modelled as strings. -/
structure StageEnv where
  diagnose : StageOutcome String
  plan_result : StageOutcome Plan
  execute : StageOutcome String
  evaluate : StageOutcome String
  learn : StageOutcome String
  deriving Repr, DecidableEq

/-- An incident record as appended to incident_history at the end of
_handle_incident, with the fields the pipeline filled in and the resolved_at
time. -/
structure HandledIncident where
  incident : Incident
  custom_diagnosis : StageOutcome String
  response_plan : Plan
  execution_result : StageOutcome String
  evaluation : StageOutcome String
  learning_result : StageOutcome String
  resolved_at : Nat
  deriving Repr, DecidableEq

/-- The commander state touched by the incident pipeline. -/
structure CommanderState where
  incident_history : List HandledIncident
  current_incident : Option Incident
  deriving Repr, DecidableEq

/-- IncidentCommander._handle_incident. The incident is first installed as
current_incident. When plan creation raises, the function RETURNS at once:
the incident is neither appended to incident_history nor is current_incident
cleared. On every other path the remaining stages run (their failures are
recorded inline), the record is appended and current_incident is set back to
none. -/
def handle_incident (st : CommanderState) (incident : Incident)
    (stages : StageEnv) (now : Nat) : CommanderState :=
  let st1 : CommanderState := { st with current_incident := some incident }
  match stages.plan_result with
  | .err _ => st1
  | .ok plan =>
    { incident_history := st1.incident_history ++
        [{ incident := incident
           custom_diagnosis := stages.diagnose
           response_plan := plan
           execution_result := stages.execute
           evaluation := stages.evaluate
           learning_result := stages.learn
           resolved_at := now }]
      current_incident := none }

/-- Boolean equality of two service lists viewed as sets, as in
set(current.get("affected_services", [])) == set(incident.get(...)). -/
def list_set_eq (a b : List String) : Bool :=
  a.all (fun x => b.contains x) && b.all (fun x => a.contains x)

/-- IncidentCommander._is_incident_already_handled: true exactly when a
current incident exists with the same "type" and the same affected-services
set. -/
def is_incident_already_handled (st : CommanderState) (incident : Incident) :
    Bool :=
  match st.current_incident with
  | none => false
  | some current =>
    current.itype == incident.itype &&
      list_set_eq current.affected_services incident.affected_services

/-- Static service configuration: name and declared dependencies, in registry
insertion order (config.SERVICES). -/
def ServicesConfig := List (String × List String)

/-- The down-service sweep of IncidentCommander._detect_incidents. -/
def down_services (cache : List (String × StatusEntry)) : List String :=
  (cache.filter (fun p => p.2.status == some "down")).map Prod.fst

/-- The degraded-service sweep of IncidentCommander._detect_incidents. -/
def degraded_services (cache : List (String × StatusEntry)) : List String :=
  (cache.filter (fun p => p.2.status == some "degraded")).map Prod.fst

/-- IncidentCommander._detect_dependency_incidents: one dependency_failure
incident per configured service that has at least one declared dependency
currently down in the cache. -/
def detect_dependency_incidents (now : Nat) (services : ServicesConfig)
    (cache : List (String × StatusEntry)) : List Incident :=
  services.filterMap (fun cfg =>
    let down_deps := cfg.2.filter (fun dep =>
      match cache.lookup dep with
      | some entry => entry.status == some "down"
      | none => false)
    if cfg.2.isEmpty then none
    else if down_deps.isEmpty then none
    else some
      { itype := "dependency_failure"
        severity := "medium"
        affected_services := [cfg.1]
        root_cause_services := down_deps
        summary := "Service " ++ cfg.1 ++ " affected by down dependencies: " ++
          String.intercalate ", " down_deps
        timestamp := now })

/-- IncidentCommander._detect_incidents: the optional service_down incident,
then the optional service_degraded incident, then the dependency incidents. -/
def detect_incidents (now : Nat) (services : ServicesConfig)
    (cache : List (String × StatusEntry)) : List Incident :=
  (if (down_services cache).isEmpty then []
   else
    [{ itype := "service_down"
       severity := "high"
       affected_services := down_services cache
       summary := "Services " ++ String.intercalate ", " (down_services cache)
         ++ " are down"
       timestamp := now }]) ++
  (if (degraded_services cache).isEmpty then []
   else
    [{ itype := "service_degraded"
       severity := "medium"
       affected_services := degraded_services cache
       summary := "Services " ++
         String.intercalate ", " (degraded_services cache) ++ " are degraded"
       timestamp := now }]) ++
  detect_dependency_incidents now services cache

/-- One iteration of IncidentCommander._incident_detection_loop: detect the
candidate incidents from the cache and, for each in order, handle it unless
_is_incident_already_handled suppresses it. stages gives the pipeline stage
outcomes of each handled incident. -/
def detection_tick (stages : Incident → StageEnv) (now : Nat)
    (services : ServicesConfig) (cache : List (String × StatusEntry))
    (st : CommanderState) : CommanderState :=
  (detect_incidents now services cache).foldl
    (fun acc inc =>
      if is_incident_already_handled acc inc then acc
      else handle_incident acc inc (stages inc) now)
    st

end IncidentCommander

namespace PlanExecutor

/-- PlanExecutor._get_updated_service_status; its body is identical to
IncidentCommander._get_all_service_status. -/
def get_updated_service_status (services : List String) (env : ServiceEnv) :
    List (String × StatusEntry) :=
  services.map (fun name => (name, health_status_entry (env.health name)))

end PlanExecutor

/-- Python str.lower restricted to the ASCII action texts in play. -/
def py_lower (s : String) : String := String.mk (s.toList.map Char.toLower)

/-- Python substring membership, pat in s. -/
def str_contains (s pat : String) : Bool :=
  (List.range (s.length + 1)).any (fun i => pat.toList.isPrefixOf (s.toList.drop i))

namespace PlanExecutor

/-- Result dictionary of one concrete action helper: its "success" flag and
"message" text. -/
structure ActionResult where
  success : Bool
  message : String
  deriving Repr, DecidableEq

/-- PlanExecutor._restart_single_service: an unconfigured name returns an
in-band failure dictionary (no exception); otherwise POST /recover succeeds
exactly on a 200 response. -/
def restart_single_service (services : List String) (env : ServiceEnv)
    (name : String) : ActionResult :=
  if !services.contains name then
    { success := false, message := "Service " ++ name ++ " not found" }
  else
    match env.recover name with
    | .exc => { success := false, message := "Error restarting " ++ name }
    | .resp code _ =>
      if code == 200 then
        { success := true, message := "Service " ++ name ++ " restarted" }
      else
        { success := false,
          message := "Failed to restart " ++ name ++ ": " ++ toString code }

/-- PlanExecutor._restart_service: target "all" restarts every configured
service and succeeds when at least one restart succeeded. -/
def restart_service (services : List String) (env : ServiceEnv)
    (target : String) : ActionResult :=
  if target == "all" then
    let results := services.map (restart_single_service services env)
    let success_count := (results.filter (fun r => r.success)).length
    { success := decide (0 < success_count)
      message := "Restarted " ++ toString success_count ++ "/" ++
        toString results.length ++ " services" }
  else restart_single_service services env target

/-- Whether one of the three GET calls of _investigate_single_service raises:
either the request itself raises, or the code is 200 and response.json()
raises on the body. A non-200 response raises nothing (the body is skipped). -/
def call_raises {α : Type} : HttpResult α → Bool
  | .exc => true
  | .resp code body => code == 200 && body.isNone

/-- PlanExecutor._investigate_single_service: an unconfigured name returns an
in-band failure dictionary; otherwise the three GET calls (health, metrics,
dependencies) are made and the result is a success unless one of them
raises. -/
def investigate_single_service (services : List String) (env : ServiceEnv)
    (name : String) : ActionResult :=
  if !services.contains name then
    { success := false, message := "Service " ++ name ++ " not found" }
  else if call_raises (env.health name) || call_raises (env.metrics name) ||
      call_raises (env.deps name) then
    { success := false, message := "Error investigating " ++ name }
  else { success := true, message := "" }

/-- PlanExecutor._investigate_service: target "all" investigates every
configured service and reports success unconditionally. -/
def investigate_service (services : List String) (env : ServiceEnv)
    (target : String) : ActionResult :=
  if target == "all" then
    { success := true, message := "Investigation completed" }
  else investigate_single_service services env target

/-- PlanExecutor._verify_single_service: an unconfigured name returns an
in-band failure dictionary; a raised request or a raising response.json()
fails; a non-200 response fails; a 200 response succeeds exactly when the
declared status field (defaulted to "unknown" when absent) is "healthy". -/
def verify_single_service (services : List String) (env : ServiceEnv)
    (name : String) : ActionResult :=
  if !services.contains name then
    { success := false, message := "Service " ++ name ++ " not found" }
  else
    match env.health name with
    | .exc => { success := false, message := "Error verifying " ++ name }
    | .resp code body =>
      if code == 200 then
        match body with
        | none => { success := false, message := "Error verifying " ++ name }
        | some b =>
          let status := b.statusField.getD "unknown"
          { success := status == "healthy"
            message := "Service " ++ name ++ " status: " ++ status }
      else
        { success := false,
          message := "Failed to verify " ++ name ++ ": " ++ toString code }

/-- PlanExecutor._verify_service: target "all" verifies every configured
service and succeeds when at least one verification succeeded (the
quorum-of-one rule). -/
def verify_service (services : List String) (env : ServiceEnv)
    (target : String) : ActionResult :=
  if target == "all" then
    let results := services.map (verify_single_service services env)
    let success_count := (results.filter (fun r => r.success)).length
    { success := decide (0 < success_count)
      message := "Verified " ++ toString success_count ++ "/" ++
        toString results.length ++ " services" }
  else verify_single_service services env target

/-- PlanExecutor._execute_action: keyword dispatch on the lower-cased action
text; an action matching none of the keywords is an immediate in-band
failure. -/
def execute_action (services : List String) (env : ServiceEnv)
    (step : PlanStep) : ActionResult :=
  let action := py_lower step.action
  let target := step.target_service
  if str_contains action "restart" || str_contains action "recover" then
    restart_service services env target
  else if str_contains action "investigate" then
    investigate_service services env target
  else if str_contains action "verify" then
    verify_service services env target
  else { success := false, message := "Unknown action: " ++ action }

/-- One entry of step_results, as assembled by PlanExecutor._execute_step. -/
structure StepResult where
  step_id : Nat
  action : String
  target_service : String
  status : String
  custom_logic_applied : Bool := false
  message : String := ""
  deriving Repr, DecidableEq

/-- PlanExecutor._execute_step. The custom_execute hook
(orchestrator/agent_hooks.py) is passed in as hook, taking the step and the
current service-status snapshot and returning its custom_logic_applied flag;
hook step status = none models the hook raising, which the surrounding
try/except turns into a failed step without running the action. Otherwise the
action runs and the step status is "success" exactly when the action result
has success true. -/
def execute_step (services : List String) (env : ServiceEnv)
    (hook : PlanStep → List (String × StatusEntry) → Option Bool)
    (step : PlanStep) (service_status : List (String × StatusEntry)) :
    StepResult :=
  match hook step service_status with
  | none =>
    { step_id := step.step_id, action := step.action,
      target_service := step.target_service, status := "failed",
      message := "custom execution hook raised" }
  | some applied =>
    let ar := execute_action services env step
    { step_id := step.step_id, action := step.action,
      target_service := step.target_service,
      status := if ar.success then "success" else "failed",
      custom_logic_applied := applied, message := ar.message }

/-- The step loop of PlanExecutor.execute_plan: each step is executed against
the current snapshot, the snapshot is refreshed, and the loop breaks right
after the first step whose status is "failed". -/
def execute_steps (services : List String) (env : ServiceEnv)
    (hook : PlanStep → List (String × StatusEntry) → Option Bool)
    (service_status : List (String × StatusEntry)) :
    List PlanStep → List StepResult
  | [] => []
  | step :: rest =>
    let r := execute_step services env hook step service_status
    let refreshed := get_updated_service_status services env
    if r.status == "failed" then [r]
    else r :: execute_steps services env hook refreshed rest

/-- Index of the first step whose execution fails, computed against the same
snapshot sequence as execute_steps; equals the number of steps when every
step succeeds. -/
def first_failure_index (services : List String) (env : ServiceEnv)
    (hook : PlanStep → List (String × StatusEntry) → Option Bool)
    (service_status : List (String × StatusEntry)) : List PlanStep → Nat
  | [] => 0
  | step :: rest =>
    if (execute_step services env hook step service_status).status == "failed"
    then 0
    else 1 + first_failure_index services env hook
      (get_updated_service_status services env) rest

/-- Summary dictionary returned by PlanExecutor.execute_plan. The wall-clock
fields are not tracked. -/
structure ExecSummary where
  plan_id : String
  steps_executed : Nat
  steps_successful : Nat
  steps_failed : Nat
  final_service_status : List (String × StatusEntry)
  step_results : List StepResult
  deriving Repr, DecidableEq

/-- PlanExecutor.execute_plan: run the steps in list order with
stop-on-first-failure, then assemble the counts from the recorded step
results. -/
def execute_plan (services : List String) (env : ServiceEnv)
    (hook : PlanStep → List (String × StatusEntry) → Option Bool)
    (plan : Plan) (service_status : List (String × StatusEntry)) :
    ExecSummary :=
  let results := execute_steps services env hook service_status plan.steps
  { plan_id := plan.incident_id
    steps_executed := results.length
    steps_successful := (results.filter (fun r => r.status == "success")).length
    steps_failed := (results.filter (fun r => r.status == "failed")).length
    final_service_status :=
      if plan.steps.isEmpty then service_status
      else get_updated_service_status services env
    step_results := results }

end PlanExecutor

/-- A failure scenario dictionary (failures/failure_scenarios.py). The
probability field is the fraction compared against random.random();
failure_sequence is non-empty only for cascade scenarios. The failure_type
key is absent on cascade scenarios in the source, so it is an Option here
(none = key absent; reading it then raises KeyError). -/
structure Scenario where
  id : String
  name : String
  type : String
  target_services : List String
  failure_type : Option String := none
  description : String
  probability : ℚ
  duration : Int
  failure_sequence : List (String × String × Int) := []
  deriving Repr, DecidableEq

namespace FailureScenarios

/-- FailureScenarios.create_custom_scenario: build the custom scenario with
probability 1.0, append it to the shared catalog (self.scenarios) and return
it together with the grown catalog. now is the int(time.time()) read used in
the generated id. -/
def create_custom_scenario (now : Int) (nm : String)
    (target_services : List String) (failure_type : String) (duration : Int)
    (scenarios : List Scenario) : Scenario × List Scenario :=
  let sc : Scenario :=
    { id := "custom_" ++ toString now
      name := nm
      type := "custom"
      target_services := target_services
      failure_type := some failure_type
      description := "Custom scenario: " ++ nm
      probability := 1
      duration := duration }
  (sc, scenarios ++ [sc])

/-- The filter inside FailureScenarios.get_random_scenario: each scenario
draws an independent random.random() value (draw i for the scenario at
position i) and survives when the draw is strictly below its probability. -/
def valid_scenarios (draw : Nat → ℚ) : List Scenario → Nat → List Scenario
  | [], _ => []
  | s :: rest, i =>
    if draw i < s.probability then s :: valid_scenarios draw rest (i + 1)
    else valid_scenarios draw rest (i + 1)

/-- The pool from which FailureScenarios.get_random_scenario picks uniformly:
the probability-filtered scenarios, or the whole catalog when the filter left
nothing. -/
def selection_pool (draw : Nat → ℚ) (scenarios : List Scenario) :
    List Scenario :=
  let valid := valid_scenarios draw scenarios 0
  if valid.isEmpty then scenarios else valid

end FailureScenarios

namespace FailureInjector

/-- An entry of the active-failures map (self.active_failures), keyed by
failure_id. The key "type" of the record ("simple" or "cascade") is the field
rtype; sequence is set only by cascade injections. -/
structure FailureData where
  scenario : Scenario
  target_services : List String
  failure_type : String
  start_time : Int
  duration : Int
  rtype : String
  sequence : List (String × String × Int) := []
  deriving Repr, DecidableEq

/-- The CSV line FailureInjector._log_failure builds when the scenario does
carry a failure_type key: the target services are joined with "," (the
separator the source actually uses), the line closes with the status
("injected" or "recovered") and a newline. timestamp is the
datetime.now().isoformat() read. -/
def log_failure_line (timestamp failure_id : String) (scenario : Scenario)
    (ft : String) (status : String) : String :=
  timestamp ++ "," ++ failure_id ++ "," ++ scenario.name ++ "," ++
    scenario.type ++ "," ++ String.intercalate "," scenario.target_services ++
    "," ++ ft ++ "," ++ toString scenario.duration ++ "," ++
    status ++ "\x0a"

/-- FailureInjector._log_failure as a whole: reading a missing failure_type
key raises KeyError inside its try, which the local except swallows, so
nothing is appended; otherwise exactly one line is appended. -/
def log_failure (timestamp failure_id : String) (scenario : Scenario)
    (status : String) : List String :=
  match scenario.failure_type with
  | none => []
  | some ft => [log_failure_line timestamp failure_id scenario ft status]

/-- Python str.isdigit on the ASCII strings in play: non-empty and all
characters digits. -/
def py_isdigit (s : String) : Bool :=
  !s.toList.isEmpty && s.toList.all Char.isDigit

/-- Python str.split on a one-character separator: every occurrence splits,
empty fields are kept. -/
def split_chars (sep : Char) : List Char → List (List Char)
  | [] => [[]]
  | c :: rest =>
    let r := split_chars sep rest
    if c == sep then [] :: r
    else
      match r with
      | [] => [[c]]
      | h :: t => (c :: h) :: t

/-- Python str.split on a one-character separator, on strings. -/
def py_split (sep : Char) (s : String) : List String :=
  (split_chars sep s.toList).map (fun cs => String.mk cs)

/-- Python int(...) on a digit string. -/
def py_int (s : String) : Nat :=
  s.toList.foldl (fun n c => n * 10 + (c.toNat - 48)) 0

/-- Python str.strip: remove leading and trailing whitespace. -/
def py_strip (s : String) : String :=
  String.mk
    (((s.toList.dropWhile Char.isWhitespace).reverse.dropWhile
      Char.isWhitespace).reverse)

/-- One failure-history entry as parsed back by
FailureInjector.get_failure_history. -/
structure HistoryEntry where
  timestamp : String
  failure_id : String
  scenario_name : String
  type : String
  target_services : List String
  failure_type : String
  duration : Int
  status : String
  deriving Repr, DecidableEq

/-- The per-line parser inside FailureInjector.get_failure_history: strip the
line, split on ",", require at least 8 fields, then read the fields
positionally, splitting the target-services field on ";" and parsing the
duration with int(...) when the field isdigit, else 0. -/
def parse_history_line (line : String) : Option HistoryEntry :=
  let parts := py_split (Char.ofNat 44) (py_strip line)
  if 8 ≤ parts.length then
    some
      { timestamp := parts.getD 0 ""
        failure_id := parts.getD 1 ""
        scenario_name := parts.getD 2 ""
        type := parts.getD 3 ""
        target_services := py_split (Char.ofNat 59) (parts.getD 4 "")
        failure_type := parts.getD 5 ""
        duration :=
          if py_isdigit (parts.getD 6 "") then py_int (parts.getD 6 "")
          else 0
        status := parts.getD 7 "" }
  else none

/-- The injector state the claims touch: the shared scenario catalog
(self.scenarios.scenarios), the active-failures map in insertion order, and
the appended CSV log lines. -/
structure InjectorState where
  scenarios : List Scenario
  active_failures : List (String × FailureData)
  log_lines : List String
  deriving Repr, DecidableEq

/-- FailureInjector._inject_simple_failure: fire the inject calls (state
irrelevant: their success only prints) and record one active failure keyed by
failure_id. now is the time.time() read taken for start_time. This path is
only ever invoked on scenarios that carry a failure_type key (single-service,
load, resource, config, network and custom scenarios); the getD covers the
Option. -/
def inject_simple_failure (now : Int) (failure_id : String)
    (scenario : Scenario) (st : InjectorState) : InjectorState :=
  { st with
    active_failures := st.active_failures ++
      [(failure_id,
        { scenario := scenario
          target_services := scenario.target_services
          failure_type := scenario.failure_type.getD ""
          start_time := now
          duration := scenario.duration
          rtype := "simple" })] }

/-- FailureInjector._inject_cascade_failure: record one active failure up
front covering the whole sequence, then fire the sequence steps (state
irrelevant). -/
def inject_cascade_failure (now : Int) (failure_id : String)
    (scenario : Scenario) (st : InjectorState) : InjectorState :=
  { st with
    active_failures := st.active_failures ++
      [(failure_id,
        { scenario := scenario
          target_services := scenario.target_services
          failure_type := "cascade"
          start_time := now
          duration := scenario.duration
          rtype := "cascade"
          sequence := scenario.failure_sequence })] }

/-- FailureInjector._inject_scenario: derive the failure id from the scenario
id and the clock, inject through the cascade or the simple path, then append
exactly one "injected" log line. -/
def inject_scenario (now : Int) (timestamp : String) (scenario : Scenario)
    (st : InjectorState) : InjectorState :=
  let failure_id := scenario.id ++ "_" ++ toString now
  let st1 :=
    if scenario.type == "cascade" then
      inject_cascade_failure now failure_id scenario st
    else inject_simple_failure now failure_id scenario st
  { st1 with
    log_lines := st1.log_lines ++
      log_failure timestamp failure_id scenario "injected" }

/-- FailureInjector._recover_failure: fire the recovery calls to every target
service (state irrelevant) and append exactly one "recovered" log line; the
removal from the active map is done by the caller. -/
def recover_failure (timestamp : String) (failure_id : String)
    (failure_data : FailureData) (st : InjectorState) : InjectorState :=
  { st with
    log_lines := st.log_lines ++
      log_failure timestamp failure_id failure_data.scenario "recovered" }

/-- The expiry test of FailureInjector._failure_recovery_loop:
now - start_time at or above duration. -/
def expired (now : Int) (d : FailureData) : Bool :=
  decide (d.duration ≤ now - d.start_time)

/-- One sweep of FailureInjector._failure_recovery_loop at clock value now:
every active failure whose duration has elapsed is recovered (first
component: the remaining map, second: the ids recovered by this sweep, in map
order). With distinct keys this filter pair is exactly the loop that collects
failures_to_remove, recovers each and then deletes the collected keys. -/
def recovery_scan (now : Int) (active : List (String × FailureData)) :
    List (String × FailureData) × List String :=
  (active.filter (fun p => !expired now p.2),
   (active.filter (fun p => expired now p.2)).map Prod.fst)

/-- Repeated recovery sweeps at the given clock values, accumulating every
recovered id in sweep order. -/
def recovery_scans : List Int → List (String × FailureData) →
    List (String × FailureData) × List String
  | [], active => (active, [])
  | t :: ts, active =>
    let first := recovery_scan t active
    let rest := recovery_scans ts first.1
    (rest.1, first.2 ++ rest.2)

/-- FailureInjector.inject_custom_failure: synthesize the custom scenario
(appending it to the shared catalog), derive the manual failure id, and
inject through the simple path. No log line is appended on this path: the
"injected" logging lives in _inject_scenario, which this method bypasses. -/
def inject_custom_failure (now : Int) (service_names : List String)
    (failure_type : String) (duration : Int) (st : InjectorState) :
    String × InjectorState :=
  let created := FailureScenarios.create_custom_scenario now
    ("Manual " ++ failure_type ++ " failure") service_names failure_type
    duration st.scenarios
  let failure_id := "manual_" ++ toString now
  let st1 := inject_simple_failure now failure_id created.1
    { st with scenarios := created.2 }
  (failure_id, st1)

end FailureInjector

/-! Concrete fixtures used by the counterexamples and witnesses below. -/

/-- An environment whose health endpoint answers every service with an HTTP
500 and the other endpoints with plain 200 responses. -/
def envNon200 : ServiceEnv :=
  { health := fun _ => .resp 500 none
    recover := fun _ => .resp 200 none
    metrics := fun _ => .resp 200 (some ())
    deps := fun _ => .resp 200 (some ()) }

/-- A one-service registry with no dependencies. -/
def servicesA : IncidentCommander.ServicesConfig := [("service_a", [])]

/-- A status cache in which service_a is down. -/
def cacheDownA : List (String × StatusEntry) :=
  [("service_a", { status := some "down", error := none })]

/-- A small plan used as a successful planning outcome. -/
def planP0 : Plan :=
  { incident_id := "p0", severity := "medium", summary := "s", steps := []
    estimated_resolution_time := "5 minutes" }

/-- Stage outcomes in which every stage, planning included, succeeds. -/
def stagesOk : IncidentCommander.Incident → IncidentCommander.StageEnv :=
  fun _ =>
    { diagnose := .ok "d", plan_result := .ok planP0, execute := .ok "e"
      evaluate := .ok "v", learn := .ok "l" }

/-- The service_down incident that cacheDownA produces at tick time 100. -/
def incDownA : IncidentCommander.Incident :=
  { itype := "service_down", severity := "high"
    affected_services := ["service_a"]
    summary := "Services service_a are down", timestamp := 100 }

/-- C1: as stated, the claim is refuted by the control flow of the source: a
timed-out or failed LLM call makes chat_with_llm return an error STRING, so
json.loads fails on it and create_incident_plan returns its own TWO-step
fallback with estimated_resolution_time "15 minutes"; the three-step
"20 minutes" fallback of IncidentPlanner._create_fallback_plan is
unreachable on this path. Hypotheses: json.loads fails on the returned error
string (such a string starts with the letter L, which cannot begin a JSON
document), and the custom_plan hook either returns the plan unchanged or
raises. -/
theorem c1_llm_failure_returns_two_step_client_fallback
    (msg : String) (json_loads : String → Option Plan)
    (hook : Plan → Option Plan) (now : Nat) (summary : String)
    (status : List (String × StatusEntry))
    (hparse :
      json_loads (LLMClient.chat_with_llm (.reqException msg)) = none)
    (hhook : hook LLMClient.fallback_plan_llm =
        some LLMClient.fallback_plan_llm ∨
      hook LLMClient.fallback_plan_llm = none) :
    IncidentPlanner.create_plan json_loads hook (.reqException msg) =
      LLMClient.fallback_plan_llm ∧
    (IncidentPlanner.create_plan json_loads hook
      (.reqException msg)).steps.length = 2 ∧
    (IncidentPlanner.create_plan json_loads hook
      (.reqException msg)).estimated_resolution_time = "15 minutes" ∧
    (IncidentPlanner.create_fallback_plan now summary status).steps.length =
      3 ∧
    (IncidentPlanner.create_fallback_plan now summary
      status).estimated_resolution_time = "20 minutes" := by
  have hbase : LLMClient.create_incident_plan json_loads (.reqException msg) =
      LLMClient.fallback_plan_llm := by
    unfold LLMClient.create_incident_plan
    rw [hparse]
  have hmain : IncidentPlanner.create_plan json_loads hook (.reqException msg) =
      LLMClient.fallback_plan_llm := by
    unfold IncidentPlanner.create_plan
    rw [hbase]
    rcases hhook with h | h <;> simp [h]
  refine ⟨hmain, ?_, ?_, rfl, rfl⟩ <;> rw [hmain] <;> rfl

/-- C1 witness: the theorem applied to a concrete timed-out call, with
json.loads modelled at the concrete error string (not a JSON document, so it
fails) and the identity hook. -/
theorem c1_llm_failure_returns_two_step_client_fallback_witness :
    ((fun _ => none : String → Option Plan)
        (LLMClient.chat_with_llm (.reqException "Read timed out")) = none) ∧
    (IncidentPlanner.create_plan (fun _ => none) some
        (.reqException "Read timed out") = LLMClient.fallback_plan_llm ∧
      (IncidentPlanner.create_plan (fun _ => none) some
        (.reqException "Read timed out")).steps.length = 2 ∧
      (IncidentPlanner.create_plan (fun _ => none) some
        (.reqException "Read timed out")).estimated_resolution_time =
        "15 minutes" ∧
      (IncidentPlanner.create_fallback_plan 0 "incident" []).steps.length =
        3 ∧
      (IncidentPlanner.create_fallback_plan 0 "incident"
        []).estimated_resolution_time = "20 minutes") :=
  ⟨rfl, c1_llm_failure_returns_two_step_client_fallback "Read timed out"
    (fun _ => none) some 0 "incident" [] rfl (Or.inl rfl)⟩

/-- C2 counterexample: with plan creation failing, _handle_incident returns
early. At this concrete input the incident history stays empty (the incident
is NOT appended) and current_incident stays set (it is NOT cleared),
refuting the claim. -/
theorem c2_plan_failure_keeps_incident_pending_cex :
    (IncidentCommander.handle_incident
        { incident_history := [], current_incident := none } incDownA
        { diagnose := .ok "d", plan_result := .err "planner raised"
          execute := .ok "e", evaluate := .ok "v", learn := .ok "l" }
        105).incident_history = [] ∧
    (IncidentCommander.handle_incident
        { incident_history := [], current_incident := none } incDownA
        { diagnose := .ok "d", plan_result := .err "planner raised"
          execute := .ok "e", evaluate := .ok "v", learn := .ok "l" }
        105).current_incident = some incDownA := by
  exact ⟨rfl, rfl⟩

/-- C2 (amended): when plan creation fails, _handle_incident returns early
with the incident left as current_incident and nothing appended to history;
on every other path (whatever the outcomes of the execute, evaluate and learn
stages) the incident record is appended to history and current_incident is
cleared. -/
theorem c2_handle_incident_history_paths
    (st : IncidentCommander.CommanderState)
    (incident : IncidentCommander.Incident)
    (d e v l : IncidentCommander.StageOutcome String) (msg : String)
    (p : Plan) (now : Nat) :
    (IncidentCommander.handle_incident st incident
        ⟨d, .err msg, e, v, l⟩ now).incident_history = st.incident_history ∧
    (IncidentCommander.handle_incident st incident
        ⟨d, .err msg, e, v, l⟩ now).current_incident = some incident ∧
    (IncidentCommander.handle_incident st incident
        ⟨d, .ok p, e, v, l⟩ now).incident_history =
      st.incident_history ++
        [{ incident := incident, custom_diagnosis := d, response_plan := p
           execution_result := e, evaluation := v, learning_result := l
           resolved_at := now }] ∧
    (IncidentCommander.handle_incident st incident
        ⟨d, .ok p, e, v, l⟩ now).current_incident = none :=
  ⟨rfl, rfl, rfl, rfl⟩

/-- C3 counterexample: a non-200 health response is mapped to status
"unknown" (with an HTTP error string), not to "down" as the claim states. -/
theorem c3_non200_maps_to_unknown_cex :
    IncidentCommander.get_all_service_status ["service_a"] envNon200 =
      [("service_a",
        { status := some "unknown", error := some "HTTP 500" })] ∧
    (health_status_entry (.resp 500 none)).status ≠ some "down" := by
  constructor
  · rfl
  · decide

/-- C3 (amended): in both pollers a raised request (timeout or connection
error) maps the service to "down", a 200 response takes the declared status
field verbatim, but a non-200 HTTP response maps it to "unknown" with an
HTTP error string. -/
theorem c3_health_poll_status_mapping (services : List String)
    (env : ServiceEnv) (name : String) (code : Nat)
    (body : Option HealthBody) (b : HealthBody) (h : name ∈ services)
    (hcode : code ≠ 200) :
    (IncidentCommander.get_all_service_status services env).lookup name =
      some (health_status_entry (env.health name)) ∧
    (health_status_entry .exc).status = some "down" ∧
    (health_status_entry (.resp code body)).status = some "unknown" ∧
    (health_status_entry (.resp 200 (some b))).status = b.statusField ∧
    PlanExecutor.get_updated_service_status services env =
      IncidentCommander.get_all_service_status services env := by
  refine ⟨?_, rfl, ?_, rfl, rfl⟩
  · induction services with
    | nil => cases h
    | cons hd tl ih =>
      unfold IncidentCommander.get_all_service_status at *
      rcases List.mem_cons.mp h with heq | hmem
      · subst heq
        simp [List.lookup]
      · by_cases hne : name = hd
        · subst hne
          simp [List.lookup]
        · have hb : (name == hd) = false := by
            simpa using hne
          simp only [List.map_cons, List.lookup, hb]
          exact ih hmem
  · have : (code == 200) = false := by
      simpa using hcode
    simp [health_status_entry, this]

/-- C3 witness: the amended mapping evaluated at a one-service registry, the
all-500 environment and the concrete non-200 code 500. -/
theorem c3_health_poll_status_mapping_witness :
    ("service_a" ∈ ["service_a"] ∧ (500 : Nat) ≠ 200) ∧
    ((IncidentCommander.get_all_service_status ["service_a"]
        envNon200).lookup "service_a" =
      some (health_status_entry (envNon200.health "service_a")) ∧
    (health_status_entry .exc).status = some "down" ∧
    (health_status_entry (.resp 500 none)).status = some "unknown" ∧
    (health_status_entry
      (.resp 200 (some { statusField := some "degraded" }))).status =
        some "degraded" ∧
    PlanExecutor.get_updated_service_status ["service_a"] envNon200 =
      IncidentCommander.get_all_service_status ["service_a"] envNon200) :=
  ⟨⟨by decide, by decide⟩,
    c3_health_poll_status_mapping ["service_a"] envNon200 "service_a" 500
      none { statusField := some "degraded" } (by decide) (by decide)⟩

namespace IncidentCommander

/-- When plan creation succeeds, _handle_incident appends the completed
record and clears current_incident. -/
theorem handle_incident_plan_ok (st : CommanderState) (incident : Incident)
    (stages : StageEnv) (now : Nat) (p : Plan)
    (hp : stages.plan_result = .ok p) :
    handle_incident st incident stages now =
      { incident_history := st.incident_history ++
          [{ incident := incident, custom_diagnosis := stages.diagnose
             response_plan := p, execution_result := stages.execute
             evaluation := stages.evaluate, learning_result := stages.learn
             resolved_at := now }]
        current_incident := none } := by
  unfold handle_incident
  rw [hp]

/-- A detection sweep in which every candidate incident is suppressed leaves
the commander state unchanged. -/
theorem detection_fold_skip (stages : Incident → StageEnv) (now : Nat)
    (L : List Incident) (st : CommanderState)
    (h : ∀ inc ∈ L, is_incident_already_handled st inc = true) :
    L.foldl (fun acc inc =>
      if is_incident_already_handled acc inc then acc
      else handle_incident acc inc (stages inc) now) st = st := by
  induction L with
  | nil => rfl
  | cons hd tl ih =>
    have hhd := h hd (List.mem_cons_self hd tl)
    simp only [List.foldl_cons, hhd, if_true]
    exact ih (fun inc hinc => h inc (List.mem_cons_of_mem hd hinc))

/-- A detection sweep starting with no current incident and with plan
creation succeeding everywhere handles every candidate: one history record
per candidate, and current_incident is none again afterwards. -/
theorem detection_fold_clean (stages : Incident → StageEnv) (now : Nat)
    (L : List Incident) :
    ∀ st : CommanderState, st.current_incident = none →
      (∀ inc, ∃ p, (stages inc).plan_result = .ok p) →
      ((L.foldl (fun acc inc =>
          if is_incident_already_handled acc inc then acc
          else handle_incident acc inc (stages inc) now)
          st).incident_history.length =
        st.incident_history.length + L.length ∧
      (L.foldl (fun acc inc =>
          if is_incident_already_handled acc inc then acc
          else handle_incident acc inc (stages inc) now)
          st).current_incident = none) := by
  induction L with
  | nil =>
    intro st h1 _
    simpa using h1
  | cons hd tl ih =>
    intro st h1 h2
    have hskip : is_incident_already_handled st hd = false := by
      unfold is_incident_already_handled
      rw [h1]
    rcases h2 hd with ⟨p, hp⟩
    have hh := handle_incident_plan_ok st hd (stages hd) now p hp
    simp only [List.foldl_cons, hskip, Bool.false_eq_true, if_false]
    obtain ⟨iha, ihb⟩ := ih (handle_incident st hd (stages hd) now)
      (by rw [hh]) h2
    refine ⟨?_, ihb⟩
    rw [iha, hh]
    simp only [List.length_append, List.length_cons, List.length_nil]
    omega

end IncidentCommander

/-- C4 counterexample: two detection ticks over the same unchanged down
condition append TWO incidents to history, because the first handling clears
current_incident synchronously before the second tick runs; the claimed
"exactly one" fails. -/
theorem c4_duplicate_ticks_append_twice_cex :
    (IncidentCommander.detection_tick stagesOk 100 servicesA cacheDownA
      { incident_history := [],
        current_incident := none }).incident_history.length = 1 ∧
    (IncidentCommander.detection_tick stagesOk 110 servicesA cacheDownA
      (IncidentCommander.detection_tick stagesOk 100 servicesA cacheDownA
        { incident_history := [],
          current_incident := none })).incident_history.length = 2 := by
  constructor
  · rfl
  · rfl

/-- C4 (amended): the discard rule itself holds — while a current incident
with the same type and affected-services set exists, every matching emitted
incident is discarded and the state (history included) is unchanged — but
the exactly-once consequence fails: current_incident is cleared at the end of
each synchronous handling, so a tick starting with no current incident and
succeeding plan creation appends one record per detected incident, every
tick anew. -/
theorem c4_dedup_discard_and_reappend (stages : IncidentCommander.Incident →
      IncidentCommander.StageEnv) (now : Nat)
    (services : IncidentCommander.ServicesConfig)
    (cache : List (String × StatusEntry))
    (st st2 : IncidentCommander.CommanderState)
    (c : IncidentCommander.Incident)
    (hcur : st.current_incident = none)
    (hplan : ∀ inc, ∃ p, (stages inc).plan_result = .ok p)
    (hcur2 : st2.current_incident = some c)
    (hmatch : ∀ inc ∈ IncidentCommander.detect_incidents now services cache,
      c.itype = inc.itype ∧
      IncidentCommander.list_set_eq c.affected_services
        inc.affected_services = true) :
    (IncidentCommander.detection_tick stages now services cache
        st).incident_history.length =
      st.incident_history.length +
        (IncidentCommander.detect_incidents now services cache).length ∧
    (IncidentCommander.detection_tick stages now services cache
        st).current_incident = none ∧
    IncidentCommander.detection_tick stages now services cache st2 = st2 := by
  obtain ⟨h1, h2⟩ := IncidentCommander.detection_fold_clean stages now
    (IncidentCommander.detect_incidents now services cache) st hcur hplan
  refine ⟨h1, h2, ?_⟩
  apply IncidentCommander.detection_fold_skip
  intro inc hinc
  rcases hmatch inc hinc with ⟨ht, hs⟩
  unfold IncidentCommander.is_incident_already_handled
  rw [hcur2]
  simp [ht, hs]

/-- C4 witness: the amended statement evaluated at the one-service registry
with service_a down, all stages succeeding: one tick from a clean state
appends exactly one record and returns current_incident to none, and a tick
while the matching incident is still current changes nothing. -/
theorem c4_dedup_discard_and_reappend_witness :
    (IncidentCommander.detection_tick stagesOk 100 servicesA cacheDownA
      { incident_history := [],
        current_incident := none }).incident_history.length = 1 ∧
    (IncidentCommander.detection_tick stagesOk 100 servicesA cacheDownA
      { incident_history := [],
        current_incident := none }).current_incident = none ∧
    IncidentCommander.detection_tick stagesOk 100 servicesA cacheDownA
      { incident_history := [], current_incident := some incDownA } =
      { incident_history := [], current_incident := some incDownA } := by
  obtain ⟨h1, h2, h3⟩ := c4_dedup_discard_and_reappend stagesOk 100 servicesA
    cacheDownA { incident_history := [], current_incident := none }
    { incident_history := [], current_incident := some incDownA } incDownA
    rfl (fun _ => ⟨planP0, rfl⟩) rfl (by decide)
  exact ⟨h1.trans (by decide), h2, h3⟩

/-- In a list of pairs with distinct keys, a key determines its pair. -/
theorem nodup_keys_pair_eq {α β : Type} (l : List (α × β))
    (h : (l.map Prod.fst).Nodup) (p q : α × β) (hp : p ∈ l) (hq : q ∈ l)
    (hfst : p.1 = q.1) : p = q := by
  induction l with
  | nil => cases hp
  | cons hd tl ih =>
    obtain ⟨hnotin, htl⟩ := List.nodup_cons.mp (List.map_cons Prod.fst hd tl ▸ h)
    rcases List.mem_cons.mp hp with rfl | hp2
    · rcases List.mem_cons.mp hq with rfl | hq2
      · rfl
      · exact absurd (hfst ▸ List.mem_map_of_mem Prod.fst hq2) hnotin
    · rcases List.mem_cons.mp hq with rfl | hq2
      · exact absurd (hfst ▸ List.mem_map_of_mem Prod.fst hp2) hnotin
      · exact ih htl hp2 hq2

namespace FailureInjector

/-- A failure id recovered by a sweep names an expired entry of the active
map. -/
theorem recovery_scan_mem (now : Int) (active : List (String × FailureData))
    (fid : String) :
    fid ∈ (recovery_scan now active).2 ↔
      ∃ d, (fid, d) ∈ active ∧ d.duration ≤ now - d.start_time := by
  constructor
  · intro hmem
    obtain ⟨p, hp, hfst⟩ := List.mem_map.mp hmem
    obtain ⟨hpa, hpe⟩ := List.mem_filter.mp hp
    refine ⟨p.2, ?_, ?_⟩
    · simpa [← hfst] using hpa
    · simpa [expired] using hpe
  · rintro ⟨d, hd, hdur⟩
    exact List.mem_map.mpr ⟨(fid, d),
      List.mem_filter.mpr ⟨hd, by simpa [expired] using hdur⟩, rfl⟩

/-- With distinct keys, a recovered failure id is no longer a key of the
remaining active map: it cannot be recovered again by a later sweep. -/
theorem recovery_scan_removed (now : Int)
    (active : List (String × FailureData))
    (h : (active.map Prod.fst).Nodup) (fid : String)
    (hrec : fid ∈ (recovery_scan now active).2) :
    fid ∉ (recovery_scan now active).1.map Prod.fst := by
  intro hrem
  obtain ⟨p, hp, hpf⟩ := List.mem_map.mp hrec
  obtain ⟨hpa, hpe⟩ := List.mem_filter.mp hp
  obtain ⟨q, hq, hqf⟩ := List.mem_map.mp hrem
  obtain ⟨hqa, hqe⟩ := List.mem_filter.mp hq
  have hpq : p = q := nodup_keys_pair_eq active h p q hpa hqa (by rw [hpf, hqf])
  rw [hpq] at hpe
  simp only [Bool.not_eq_eq_eq_not, Bool.not_true] at hqe
  rw [hqe] at hpe
  cases hpe

/-- The remaining active map of a sweep keeps a sub-multiset of the keys. -/
theorem recovery_scan_keys_sublist (now : Int)
    (active : List (String × FailureData)) :
    List.Sublist ((recovery_scan now active).1.map Prod.fst)
      (active.map Prod.fst) :=
  (List.filter_sublist active).map Prod.fst

/-- The ids recovered by a sweep form a sub-multiset of the keys. -/
theorem recovery_scan_rec_sublist (now : Int)
    (active : List (String × FailureData)) :
    List.Sublist ((recovery_scan now active).2) (active.map Prod.fst) :=
  (List.filter_sublist active).map Prod.fst

/-- Every id recovered across repeated sweeps was a key at the start. -/
theorem recovery_scans_rec_sub (times : List Int) :
    ∀ active : List (String × FailureData),
      ∀ fid ∈ (recovery_scans times active).2, fid ∈ active.map Prod.fst := by
  induction times with
  | nil => intro active fid h; cases h
  | cons t ts ih =>
    intro active fid h
    rcases List.mem_append.mp h with h1 | h2
    · exact (recovery_scan_rec_sublist t active).subset h1
    · exact (recovery_scan_keys_sublist t active).subset (ih _ fid h2)

/-- With distinct keys, the recovered ids accumulated across repeated sweeps
are pairwise distinct: no failure is recovered twice. -/
theorem recovery_scans_rec_nodup (times : List Int) :
    ∀ active : List (String × FailureData),
      (active.map Prod.fst).Nodup → ((recovery_scans times active).2).Nodup := by
  induction times with
  | nil => intro active _; exact List.nodup_nil
  | cons t ts ih =>
    intro active h
    have h1 : ((recovery_scan t active).2).Nodup :=
      List.Nodup.sublist (recovery_scan_rec_sublist t active) h
    have hrem : (((recovery_scan t active).1).map Prod.fst).Nodup :=
      List.Nodup.sublist (recovery_scan_keys_sublist t active) h
    have h2 : ((recovery_scans ts (recovery_scan t active).1).2).Nodup :=
      ih _ hrem
    refine List.nodup_append.mpr ⟨h1, h2, ?_⟩
    intro fid hf1 hf2
    exact recovery_scan_removed t active h fid hf1
      (recovery_scans_rec_sub ts _ fid hf2)

end FailureInjector

/-- A two-target scenario from the catalog (the Memory Pressure resource
scenario of failure_scenarios.py, with its probability 0.25 and a sampled
duration of 180). -/
def scMemPressure : Scenario :=
  { id := "memory_pressure", name := "Memory Pressure", type := "resource"
    target_services := ["service_a", "service_e"]
    failure_type := some "degraded"
    description := "Simulate memory pressure on frontend services"
    probability := 1/4, duration := 180 }

/-- An active failure injected at time 0 with duration 60. -/
def fd1C5 : FailureInjector.FailureData :=
  { scenario := scMemPressure, target_services := ["service_a", "service_e"]
    failure_type := "degraded", start_time := 0, duration := 60
    rtype := "simple" }

/-- An active failure injected at time 90 with duration 60. -/
def fd2C5 : FailureInjector.FailureData :=
  { scenario := scMemPressure, target_services := ["service_a", "service_e"]
    failure_type := "degraded", start_time := 90, duration := 60
    rtype := "simple" }

/-- An active-failures map with two distinct keys. -/
def activeC5 : List (String × FailureInjector.FailureData) :=
  [("f1", fd1C5), ("f2", fd2C5)]

/-- C5: one sweep of the recovery loop recovers a failure id if and only if
an active record under that id has now minus start_time at or above its
duration (so no record is recovered early), every recovered id is removed
from the active map by the same sweep, and across arbitrarily many sweeps no
id is ever recovered twice. -/
theorem c5_recovery_fires_iff_expired_and_once (now : Int)
    (active : List (String × FailureInjector.FailureData))
    (h : (active.map Prod.fst).Nodup) :
    (∀ fid, fid ∈ (FailureInjector.recovery_scan now active).2 ↔
      ∃ d, (fid, d) ∈ active ∧ d.duration ≤ now - d.start_time) ∧
    (∀ fid ∈ (FailureInjector.recovery_scan now active).2,
      fid ∉ (FailureInjector.recovery_scan now active).1.map Prod.fst) ∧
    (∀ times : List Int,
      ((FailureInjector.recovery_scans times active).2).Nodup) :=
  ⟨fun fid => FailureInjector.recovery_scan_mem now active fid,
   fun fid hf => FailureInjector.recovery_scan_removed now active h fid hf,
   fun times => FailureInjector.recovery_scans_rec_nodup times active h⟩

/-- C5 witness: at time 100, the record injected at time 0 with duration 60
is recovered and removed, the record injected at time 90 is not, and the
recoveries accumulated over the sweeps at times 100, 105 and 200 are pairwise
distinct. -/
theorem c5_recovery_fires_iff_expired_and_once_witness :
    "f1" ∈ (FailureInjector.recovery_scan 100 activeC5).2 ∧
    ("f2" ∈ (FailureInjector.recovery_scan 100 activeC5).2 → False) ∧
    "f1" ∉ (FailureInjector.recovery_scan 100 activeC5).1.map Prod.fst ∧
    ((FailureInjector.recovery_scans [100, 105, 200] activeC5).2).Nodup := by
  obtain ⟨h1, h2, h3⟩ :=
    c5_recovery_fires_iff_expired_and_once 100 activeC5 (by decide)
  have hf1 : "f1" ∈ (FailureInjector.recovery_scan 100 activeC5).2 :=
    (h1 "f1").mpr ⟨fd1C5, by simp [activeC5], by decide⟩
  refine ⟨hf1, ?_, h2 "f1" hf1, h3 [100, 105, 200]⟩
  intro hbad
  obtain ⟨d, hd, hdur⟩ := (h1 "f2").mp hbad
  have hdd : d = fd2C5 := by
    simpa [activeC5] using hd
  rw [hdd] at hdur
  revert hdur
  decide

namespace PlanExecutor

/-- The identification fields of a step result are copied from the step, on
both the hook-raised branch and the action branch. -/
theorem execute_step_fields (services : List String) (env : ServiceEnv)
    (hook : PlanStep → List (String × StatusEntry) → Option Bool)
    (step : PlanStep) (status : List (String × StatusEntry)) :
    (execute_step services env hook step status).step_id = step.step_id ∧
    (execute_step services env hook step status).action = step.action ∧
    (execute_step services env hook step status).target_service =
      step.target_service := by
  unfold execute_step
  cases hook step status <;> exact ⟨rfl, rfl, rfl⟩

/-- The number of recorded step results is the first failure position plus
one, capped at the number of steps. -/
theorem execute_steps_length (services : List String) (env : ServiceEnv)
    (hook : PlanStep → List (String × StatusEntry) → Option Bool) :
    ∀ (steps : List PlanStep) (status : List (String × StatusEntry)),
      (execute_steps services env hook status steps).length =
        min (first_failure_index services env hook status steps + 1)
          steps.length := by
  intro steps
  induction steps with
  | nil =>
    intro status
    simp [execute_steps, first_failure_index]
  | cons step rest ih =>
    intro status
    unfold execute_steps first_failure_index
    by_cases hfail :
        ((execute_step services env hook step status).status == "failed") = true
    · simp only [hfail, if_true, List.length_cons, List.length_nil]
      omega
    · simp only [Bool.not_eq_true] at hfail
      simp only [hfail, Bool.false_eq_true, if_false, List.length_cons, ih]
      omega

/-- The recorded step results are, field for field, the executed prefix of
the plan steps, in plan order. -/
theorem execute_steps_prefix (services : List String) (env : ServiceEnv)
    (hook : PlanStep → List (String × StatusEntry) → Option Bool) :
    ∀ (steps : List PlanStep) (status : List (String × StatusEntry)),
      (execute_steps services env hook status steps).map
          (fun r => (r.step_id, r.action, r.target_service)) =
        (steps.take
            (execute_steps services env hook status steps).length).map
          (fun s => (s.step_id, s.action, s.target_service)) := by
  intro steps
  induction steps with
  | nil =>
    intro status
    rfl
  | cons step rest ih =>
    intro status
    obtain ⟨hid, hact, htgt⟩ :=
      execute_step_fields services env hook step status
    unfold execute_steps
    by_cases hfail :
        ((execute_step services env hook step status).status == "failed") = true
    · simp only [hfail, if_true, List.length_cons, List.length_nil,
        List.take_succ_cons, List.take_zero, List.map_cons, List.map_nil,
        hid, hact, htgt]
    · simp only [Bool.not_eq_true] at hfail
      simp only [hfail, Bool.false_eq_true, if_false, List.length_cons,
        List.take_succ_cons, List.map_cons, hid, hact, htgt]
      rw [ih]

/-- Every recorded step result before the halting one has a non-failed
status: execution never continues past a failed step. -/
theorem execute_steps_before_halt (services : List String) (env : ServiceEnv)
    (hook : PlanStep → List (String × StatusEntry) → Option Bool) :
    ∀ (steps : List PlanStep) (status : List (String × StatusEntry)),
      ∀ r ∈ (execute_steps services env hook status steps).dropLast,
        r.status ≠ "failed" := by
  intro steps
  induction steps with
  | nil =>
    intro status r hr
    cases hr
  | cons step rest ih =>
    intro status r hr
    unfold execute_steps at hr
    by_cases hfail :
        ((execute_step services env hook step status).status == "failed") = true
    · simp only [hfail, if_true, List.dropLast_single] at hr
      cases hr
    · simp only [Bool.not_eq_true] at hfail
      simp only [hfail, Bool.false_eq_true, if_false] at hr
      cases hrest : execute_steps services env hook
          (get_updated_service_status services env) rest with
      | nil =>
        rw [hrest] at hr
        simp only [List.dropLast_single] at hr
        cases hr
      | cons a as =>
        rw [hrest, List.dropLast_cons₂] at hr
        rcases List.mem_cons.mp hr with rfl | hr2
        · intro hc
          rw [hc] at hfail
          simp at hfail
        · have := ih (get_updated_service_status services env) r
          rw [hrest] at this
          exact this hr2

/-- Some step fails exactly when the first failure position lies inside the
plan, in which case a failed status is recorded. -/
theorem execute_steps_failure_iff (services : List String) (env : ServiceEnv)
    (hook : PlanStep → List (String × StatusEntry) → Option Bool) :
    ∀ (steps : List PlanStep) (status : List (String × StatusEntry)),
      (first_failure_index services env hook status steps < steps.length ↔
        ∃ r ∈ execute_steps services env hook status steps,
          r.status = "failed") := by
  intro steps
  induction steps with
  | nil =>
    intro status
    simp [execute_steps, first_failure_index]
  | cons step rest ih =>
    intro status
    unfold execute_steps first_failure_index
    by_cases hfail :
        ((execute_step services env hook step status).status == "failed") = true
    · simp only [hfail, if_true, List.length_cons]
      constructor
      · intro _
        exact ⟨execute_step services env hook step status,
          List.mem_cons_self _ _, by simpa using hfail⟩
      · intro _
        omega
    · simp only [Bool.not_eq_true] at hfail
      simp only [hfail, Bool.false_eq_true, if_false, List.length_cons]
      constructor
      · intro hlt
        obtain ⟨r, hr, hrs⟩ :=
          (ih (get_updated_service_status services env)).mp (by omega)
        exact ⟨r, List.mem_cons_of_mem _ hr, hrs⟩
      · rintro ⟨r, hr, hrs⟩
        rcases List.mem_cons.mp hr with rfl | hr2
        · rw [hrs] at hfail
          simp at hfail
        · have := (ih (get_updated_service_status services env)).mpr ⟨r, hr2, hrs⟩
          omega

end PlanExecutor

/-- An environment in which every service is reachable and healthy and every
recovery call answers 200. -/
def envHealthy : ServiceEnv :=
  { health := fun _ => .resp 200 (some { statusField := some "healthy" })
    recover := fun _ => .resp 200 (some ())
    metrics := fun _ => .resp 200 (some ())
    deps := fun _ => .resp 200 (some ()) }

/-- A custom_execute hook that succeeds without claiming custom logic. -/
def hookOk : PlanStep → List (String × StatusEntry) → Option Bool :=
  fun _ _ => some false

/-- A three-step plan whose second step restarts an unconfigured service. -/
def planC6 : Plan :=
  { incident_id := "plan_c6", severity := "high", summary := "restart ghost"
    steps :=
      [ { step_id := 1, action := "Investigate failed services",
          target_service := "all", expected_outcome := "Identify root cause",
          priority := "high" },
        { step_id := 2, action := "Restart failed services",
          target_service := "ghost", expected_outcome := "Service recovery",
          priority := "high" },
        { step_id := 3, action := "Verify dependencies",
          target_service := "all",
          expected_outcome := "Dependency health confirmed",
          priority := "medium" } ]
    estimated_resolution_time := "20 minutes" }

/-- C6: execute_plan runs the plan steps in list order and halts at the first
step whose status is failed: steps_executed is the first failure position
plus one, capped at the step count (so it equals the step count when nothing
fails); the recorded results are, field for field, exactly the executed
prefix of the plan steps; every result before the halting one is non-failed;
and a failed status is recorded exactly when the first failure position lies
inside the plan. -/
theorem c6_executor_stops_at_first_failed_step (services : List String)
    (env : ServiceEnv)
    (hook : PlanStep → List (String × StatusEntry) → Option Bool)
    (plan : Plan) (service_status : List (String × StatusEntry)) :
    (PlanExecutor.execute_plan services env hook plan
        service_status).steps_executed =
      min (PlanExecutor.first_failure_index services env hook service_status
          plan.steps + 1)
        plan.steps.length ∧
    (PlanExecutor.execute_plan services env hook plan
        service_status).step_results.map
        (fun r => (r.step_id, r.action, r.target_service)) =
      (plan.steps.take
          ((PlanExecutor.execute_plan services env hook plan
            service_status).steps_executed)).map
        (fun s => (s.step_id, s.action, s.target_service)) ∧
    (∀ r ∈ (PlanExecutor.execute_plan services env hook plan
        service_status).step_results.dropLast, r.status ≠ "failed") ∧
    (PlanExecutor.first_failure_index services env hook service_status
        plan.steps < plan.steps.length ↔
      ∃ r ∈ (PlanExecutor.execute_plan services env hook plan
        service_status).step_results, r.status = "failed") :=
  ⟨PlanExecutor.execute_steps_length services env hook plan.steps
      service_status,
   PlanExecutor.execute_steps_prefix services env hook plan.steps
      service_status,
   fun r hr => PlanExecutor.execute_steps_before_halt services env hook
      plan.steps service_status r hr,
   PlanExecutor.execute_steps_failure_iff services env hook plan.steps
      service_status⟩

/-- C6 witness: on the three-step plan whose second step restarts an
unconfigured service, execution records exactly two step results and a failed
status. -/
theorem c6_executor_stops_at_first_failed_step_witness :
    (PlanExecutor.execute_plan ["service_a"] envHealthy hookOk planC6
        []).steps_executed = 2 ∧
    (∃ r ∈ (PlanExecutor.execute_plan ["service_a"] envHealthy hookOk planC6
        []).step_results, r.status = "failed") := by
  obtain ⟨h1, h2, h3, h4⟩ := c6_executor_stops_at_first_failed_step
    ["service_a"] envHealthy hookOk planC6 []
  exact ⟨h1.trans (by decide), h4.mp (by decide)⟩

/-- A filtered list is non-empty exactly when some member satisfies the
predicate. -/
theorem filter_length_pos_iff {α : Type} (l : List α) (p : α → Bool) :
    0 < (l.filter p).length ↔ ∃ x ∈ l, p x = true := by
  constructor
  · intro h0
    obtain ⟨x, hx⟩ := List.exists_mem_of_length_pos h0
    obtain ⟨hxl, hxp⟩ := List.mem_filter.mp hx
    exact ⟨x, hxl, hxp⟩
  · rintro ⟨x, hxl, hxp⟩
    exact List.length_pos_of_mem (List.mem_filter.mpr ⟨hxl, hxp⟩)

namespace PlanExecutor

/-- A configured service passes verification exactly when its health call
answers 200 with a parseable body whose declared status is healthy. -/
theorem verify_single_success_iff (services : List String) (env : ServiceEnv)
    (name : String) (h : name ∈ services) :
    (verify_single_service services env name).success = true ↔
      ∃ b, env.health name = .resp 200 (some b) ∧
        b.statusField.getD "unknown" = "healthy" := by
  unfold verify_single_service
  cases henv : env.health name with
  | exc => simp [h, henv]
  | resp code body =>
    by_cases h200 : code = 200
    · subst h200
      cases body with
      | none => simp [h, henv]
      | some b => simp [h, henv]
    · simp [h, henv, h200]

end PlanExecutor

/-- C8: a verify step on a configured single target succeeds exactly when
that service reports status healthy (a 200 health response whose declared
status field is healthy), and a verify step with target "all" succeeds
exactly when at least one configured service reports healthy — the
quorum-of-one rule. -/
theorem c8_verify_step_semantics (services : List String) (env : ServiceEnv)
    (name : String) (h : name ∈ services) :
    ((PlanExecutor.verify_single_service services env name).success = true ↔
      ∃ b, env.health name = .resp 200 (some b) ∧
        b.statusField.getD "unknown" = "healthy") ∧
    ((PlanExecutor.verify_service services env "all").success = true ↔
      ∃ n ∈ services, ∃ b, env.health n = .resp 200 (some b) ∧
        b.statusField.getD "unknown" = "healthy") := by
  refine ⟨PlanExecutor.verify_single_success_iff services env name h, ?_⟩
  unfold PlanExecutor.verify_service
  simp only [beq_self_eq_true, if_true, decide_eq_true_eq]
  rw [filter_length_pos_iff]
  constructor
  · rintro ⟨r, hr, hrs⟩
    obtain ⟨n, hn, rfl⟩ := List.mem_map.mp hr
    exact ⟨n, hn,
      (PlanExecutor.verify_single_success_iff services env n hn).mp hrs⟩
  · rintro ⟨n, hn, hb⟩
    exact ⟨PlanExecutor.verify_single_service services env n,
      List.mem_map_of_mem _ hn,
      (PlanExecutor.verify_single_success_iff services env n hn).mpr hb⟩

/-- An environment in which service_b is healthy and every other service
reports status down. -/
def envMixed : ServiceEnv :=
  { health := fun n =>
      if n == "service_b" then .resp 200 (some { statusField := some "healthy" })
      else .resp 200 (some { statusField := some "down" })
    recover := fun _ => .resp 200 (some ())
    metrics := fun _ => .resp 200 (some ())
    deps := fun _ => .resp 200 (some ()) }

/-- C8 witness: with service_a down and service_b healthy, the single-target
verification of service_b succeeds and the verify-all step succeeds on the
strength of that one healthy service. -/
theorem c8_verify_step_semantics_witness :
    (PlanExecutor.verify_single_service ["service_a", "service_b"] envMixed
      "service_b").success = true ∧
    (PlanExecutor.verify_service ["service_a", "service_b"] envMixed
      "all").success = true := by
  obtain ⟨w1, w2⟩ := c8_verify_step_semantics ["service_a", "service_b"]
    envMixed "service_b" (by decide)
  refine ⟨w1.mpr ⟨{ statusField := some "healthy" }, rfl, rfl⟩, ?_⟩
  exact w2.mpr ⟨"service_b", by decide,
    { statusField := some "healthy" }, rfl, rfl⟩

/-- A one-step plan that restarts an unconfigured service. -/
def planGhost : Plan :=
  { incident_id := "plan_ghost", severity := "high", summary := "restart"
    steps :=
      [ { step_id := 1, action := "Restart payment service",
          target_service := "ghost", expected_outcome := "Service recovery",
          priority := "high" } ]
    estimated_resolution_time := "5 minutes" }

/-- C9 counterexample: a plan step naming an unconfigured service is NOT a
fatal error surfaced to the caller: the restart helper returns an ordinary
in-band failure dictionary, and execute_plan returns a normal summary whose
single recorded step result carries status failed with the not-found
message. -/
theorem c9_unknown_service_inband_cex :
    PlanExecutor.restart_single_service ["service_a"] envHealthy "ghost" =
      { success := false, message := "Service ghost not found" } ∧
    (PlanExecutor.execute_plan ["service_a"] envHealthy hookOk planGhost
      []).steps_executed = 1 ∧
    (PlanExecutor.execute_plan ["service_a"] envHealthy hookOk planGhost
      []).step_results.map (fun r => (r.status, r.message)) =
      [("failed", "Service ghost not found")] := by
  refine ⟨by decide, by decide, by decide⟩

/-- C9 (amended): a step referencing an unconfigured service name is
converted into an ordinary in-band failed-step result with a not-found
message — by every action helper — and no exception reaches the caller of
the Executor (the helpers are total and execution proceeds through the
normal stop-on-first-failure path). -/
theorem c9_unknown_service_failed_step (services : List String)
    (env : ServiceEnv) (name : String) (h : ¬ name ∈ services) :
    PlanExecutor.restart_single_service services env name =
      { success := false, message := "Service " ++ name ++ " not found" } ∧
    PlanExecutor.investigate_single_service services env name =
      { success := false, message := "Service " ++ name ++ " not found" } ∧
    PlanExecutor.verify_single_service services env name =
      { success := false, message := "Service " ++ name ++ " not found" } := by
  refine ⟨?_, ?_, ?_⟩
  · unfold PlanExecutor.restart_single_service
    simp [h]
  · unfold PlanExecutor.investigate_single_service
    simp [h]
  · unfold PlanExecutor.verify_single_service
    simp [h]

/-- C9 witness: the amended statement evaluated at the unconfigured name
ghost against a one-service registry. -/
theorem c9_unknown_service_failed_step_witness :
    (¬ "ghost" ∈ ["service_a"]) ∧
    (PlanExecutor.restart_single_service ["service_a"] envHealthy "ghost" =
      { success := false, message := "Service ghost not found" } ∧
    PlanExecutor.investigate_single_service ["service_a"] envHealthy "ghost" =
      { success := false, message := "Service ghost not found" } ∧
    PlanExecutor.verify_single_service ["service_a"] envHealthy "ghost" =
      { success := false, message := "Service ghost not found" }) :=
  ⟨by decide,
    c9_unknown_service_failed_step ["service_a"] envHealthy "ghost" (by decide)⟩

/-- The cascade scenario from the catalog (failure_scenarios.py): it carries
a failure_sequence and no failure_type key. -/
def scCascadeAB : Scenario :=
  { id := "cascade_failure_a_b", name := "Cascade Failure A → B"
    type := "cascade", target_services := ["service_a", "service_b"]
    failure_type := none
    description := "Service B fails, causing Service A to degrade"
    probability := 1/5, duration := 180
    failure_sequence :=
      [("service_b", "down", 0), ("service_a", "degraded", 10)] }

/-- An injector state with an empty catalog, no active failures and an empty
log. -/
def st0Inj : FailureInjector.InjectorState :=
  { scenarios := [], active_failures := [], log_lines := [] }

/-- C7: the failure log diverges from the claim in three ways, all evaluated
on concrete inputs. (1) For a two-target simple scenario the one appended
line joins target_services with "," — so the line has NINE comma-separated
fields, not the eight of the claimed ;-joined format, and the reader
get_failure_history (which splits on "," and splits the fifth field on ";")
mis-assigns the fields, reporting status "180" instead of "injected". (2) A
;-joined line of the claimed shape WOULD parse correctly, showing reader and
claim agree against the writer. (3) A manually injected custom failure
appends no "injected" line at all (inject_custom_failure bypasses
_inject_scenario), and a cascade-scenario injection also appends none
(reading the absent failure_type key raises KeyError inside _log_failure),
while a simple scenario injection appends exactly one. -/
theorem c7_failure_log_line_eval :
    FailureInjector.log_failure "T0" "memory_pressure_100" scMemPressure
      "injected" =
      ["T0,memory_pressure_100,Memory Pressure,resource,service_a,service_e,degraded,180,injected\x0a"] ∧
    (FailureInjector.py_split (Char.ofNat 44) (FailureInjector.py_strip
      "T0,memory_pressure_100,Memory Pressure,resource,service_a,service_e,degraded,180,injected\x0a")).length = 9 ∧
    FailureInjector.parse_history_line
      "T0,memory_pressure_100,Memory Pressure,resource,service_a,service_e,degraded,180,injected\x0a" =
      some
        { timestamp := "T0", failure_id := "memory_pressure_100"
          scenario_name := "Memory Pressure", type := "resource"
          target_services := ["service_a"], failure_type := "service_e"
          duration := 0, status := "180" } ∧
    FailureInjector.parse_history_line
      "T0,memory_pressure_100,Memory Pressure,resource,service_a;service_e,degraded,180,injected\x0a" =
      some
        { timestamp := "T0", failure_id := "memory_pressure_100"
          scenario_name := "Memory Pressure", type := "resource"
          target_services := ["service_a", "service_e"]
          failure_type := "degraded", duration := 180
          status := "injected" } ∧
    (FailureInjector.inject_scenario 100 "T0" scMemPressure
      st0Inj).log_lines.length = 1 ∧
    (FailureInjector.inject_custom_failure 5 ["service_a"] "down" 60
      st0Inj).2.log_lines = [] ∧
    (FailureInjector.inject_scenario 100 "T0" scCascadeAB st0Inj).log_lines =
      [] := by
  refine ⟨by decide, by decide, by decide, by decide, by decide, by decide,
    by decide⟩

/-- A scenario every one of whose probability draws comes out below its
probability survives the filter of get_random_scenario, wherever it sits in
the catalog. -/
theorem valid_scenarios_mem (draw : Nat → ℚ) (s : Scenario)
    (hprob : ∀ i, draw i < s.probability) :
    ∀ (l : List Scenario) (i : Nat), s ∈ l →
      s ∈ FailureScenarios.valid_scenarios draw l i := by
  intro l
  induction l with
  | nil => intro i hs; cases hs
  | cons hd tl ih =>
    intro i hs
    unfold FailureScenarios.valid_scenarios
    rcases List.mem_cons.mp hs with rfl | hs2
    · rw [if_pos (hprob i)]
      exact List.mem_cons_self _ _
    · by_cases hcond : draw i < hd.probability
      · rw [if_pos hcond]
        exact List.mem_cons_of_mem _ (ih (i + 1) hs2)
      · rw [if_neg hcond]
        exact ih (i + 1) hs2

/-- Membership in the filtered scenarios gives membership in the pool from
which get_random_scenario picks. -/
theorem selection_pool_mem (draw : Nat → ℚ) (catalog : List Scenario)
    (s : Scenario)
    (hv : s ∈ FailureScenarios.valid_scenarios draw catalog 0) :
    s ∈ FailureScenarios.selection_pool draw catalog := by
  unfold FailureScenarios.selection_pool
  cases hcat : FailureScenarios.valid_scenarios draw catalog 0 with
  | nil =>
    rw [hcat] at hv
    cases hv
  | cons a as =>
    rw [hcat] at hv
    simp only [hcat, List.isEmpty_cons, Bool.false_eq_true, if_false]
    exact hv

/-- A sequence of further manual custom injections, applied in order; each
element carries the clock value, the target service names, the failure type
and the duration of one inject_custom_failure call. -/
def apply_custom_calls (calls : List (Int × List String × String × Int))
    (st : FailureInjector.InjectorState) : FailureInjector.InjectorState :=
  calls.foldl
    (fun acc c =>
      (FailureInjector.inject_custom_failure c.1 c.2.1 c.2.2.1 c.2.2.2 acc).2)
    st

/-- Manual custom injections only ever append to the scenario catalog, so
catalog membership persists across any sequence of them. -/
theorem apply_custom_calls_mono (calls : List (Int × List String × String × Int)) :
    ∀ (st : FailureInjector.InjectorState) (s : Scenario),
      s ∈ st.scenarios → s ∈ (apply_custom_calls calls st).scenarios := by
  induction calls with
  | nil => intro st s hs; exact hs
  | cons c cs ih =>
    intro st s hs
    exact ih _ s (List.mem_append_left _ hs)

/-- C10: a manual custom injection permanently appends the synthesized custom
scenario to the shared catalog: the catalog grows by exactly one, the new
scenario carries probability 1.0, the failure itself is recorded in the
active map, the scenario survives the probability filter of the
random-injection loop for every draw sequence (random.random() is always
below 1.0), and it is still in the catalog, in the filter and in the
selection pool after any further sequence of manual injections. -/
theorem c10_custom_injection_grows_catalog
    (st : FailureInjector.InjectorState) (now : Int)
    (service_names : List String) (failure_type : String) (duration : Int)
    (draw : Nat → ℚ) (hdraw : ∀ i, draw i < 1)
    (calls : List (Int × List String × String × Int)) :
    (FailureInjector.inject_custom_failure now service_names failure_type
        duration st).2.scenarios =
      st.scenarios ++
        [(FailureScenarios.create_custom_scenario now
          ("Manual " ++ failure_type ++ " failure") service_names
          failure_type duration st.scenarios).1] ∧
    (FailureInjector.inject_custom_failure now service_names failure_type
        duration st).2.scenarios.length = st.scenarios.length + 1 ∧
    (FailureScenarios.create_custom_scenario now
        ("Manual " ++ failure_type ++ " failure") service_names failure_type
        duration st.scenarios).1.probability = 1 ∧
    (FailureInjector.inject_custom_failure now service_names failure_type
        duration st).2.active_failures =
      st.active_failures ++
        [("manual_" ++ toString now,
          { scenario := (FailureScenarios.create_custom_scenario now
              ("Manual " ++ failure_type ++ " failure") service_names
              failure_type duration st.scenarios).1
            target_services := service_names
            failure_type := failure_type
            start_time := now
            duration := duration
            rtype := "simple" })] ∧
    (FailureScenarios.create_custom_scenario now
        ("Manual " ++ failure_type ++ " failure") service_names failure_type
        duration st.scenarios).1 ∈
      FailureScenarios.valid_scenarios draw
        (FailureInjector.inject_custom_failure now service_names failure_type
          duration st).2.scenarios 0 ∧
    (FailureScenarios.create_custom_scenario now
        ("Manual " ++ failure_type ++ " failure") service_names failure_type
        duration st.scenarios).1 ∈
      (apply_custom_calls calls
        (FailureInjector.inject_custom_failure now service_names failure_type
          duration st).2).scenarios ∧
    (FailureScenarios.create_custom_scenario now
        ("Manual " ++ failure_type ++ " failure") service_names failure_type
        duration st.scenarios).1 ∈
      FailureScenarios.selection_pool draw
        (apply_custom_calls calls
          (FailureInjector.inject_custom_failure now service_names
            failure_type duration st).2).scenarios := by
  have hprob : ∀ i, draw i <
      (FailureScenarios.create_custom_scenario now
        ("Manual " ++ failure_type ++ " failure") service_names failure_type
        duration st.scenarios).1.probability := by
    intro i
    have h1 : (FailureScenarios.create_custom_scenario now
        ("Manual " ++ failure_type ++ " failure") service_names failure_type
        duration st.scenarios).1.probability = 1 := rfl
    rw [h1]
    exact hdraw i
  have hmem0 : (FailureScenarios.create_custom_scenario now
      ("Manual " ++ failure_type ++ " failure") service_names failure_type
      duration st.scenarios).1 ∈
      (FailureInjector.inject_custom_failure now service_names failure_type
        duration st).2.scenarios := by
    exact List.mem_append_right _ (List.mem_cons_self _ _)
  have hmem1 := apply_custom_calls_mono calls _ _ hmem0
  have hvalid1 := valid_scenarios_mem draw _ hprob _ 0 hmem1
  refine ⟨rfl, ?_, rfl, rfl, ?_, hmem1, selection_pool_mem _ _ _ hvalid1⟩
  · show (st.scenarios ++ [_]).length = st.scenarios.length + 1
    simp
  · exact valid_scenarios_mem draw _ hprob _ 0 hmem0

/-- C10 witness: one concrete manual injection into an empty catalog grows it
to one scenario, and after a further manual injection the first custom
scenario is still in the selection pool under the all-zero draw sequence. -/
theorem c10_custom_injection_grows_catalog_witness :
    (FailureInjector.inject_custom_failure 5 ["service_a"] "down" 60
      st0Inj).2.scenarios.length = 1 ∧
    (FailureScenarios.create_custom_scenario 5 "Manual down failure"
        ["service_a"] "down" 60 st0Inj.scenarios).1 ∈
      FailureScenarios.selection_pool (fun _ => 0)
        (apply_custom_calls [(7, ["service_b"], "degraded", 30)]
          (FailureInjector.inject_custom_failure 5 ["service_a"] "down" 60
            st0Inj).2).scenarios := by
  obtain ⟨h1, h2, h3, h4, h5, h6, h7⟩ := c10_custom_injection_grows_catalog
    st0Inj 5 ["service_a"] "down" 60 (fun _ => 0)
    (fun _ => by norm_num) [(7, ["service_b"], "degraded", 30)]
  exact ⟨h2.trans (by decide), h7⟩
